import Mathlib

/-!
Verification of `scripts/create_api_gateway_presentation.py`.

The script drives the python-pptx library. We embed the slice of the
python-pptx object model the script touches (presentations, slide layouts,
slides, placeholders, text frames, paragraphs, text boxes) as explicit
state, and the four helper functions of the script
(`create_title_slide`, `create_content_slide`, `create_section_header`,
`add_code_block`) as functions on that state. Operations that can raise in
Python (`prs.slide_layouts[i]` -> IndexError, `slide.placeholders[idx]` ->
KeyError, assigning `.text` on a `None` title shape -> AttributeError)
return `Except`.
-/

/-- Errors the script-level operations can raise, mirroring the Python
exception that python-pptx would produce. -/
inductive PptxError where
  | indexError
  | keyError
  | attributeError
deriving DecidableEq, Repr

/-- One paragraph of a text frame: its text, its indentation `level`, and
the paragraph-level font properties (`p.font.name`, `p.font.size`; sizes
are recorded in points, so `Pt(9)` is stored as `9`). A fresh paragraph
has empty text, level 0 and no explicit font settings. -/
structure Paragraph where
  text : String := ""
  level : Nat := 0
  fontName : Option String := none
  fontSizePt : Option Nat := none
deriving DecidableEq, Repr

/-- A text frame is its ordered list of paragraphs. python-pptx keeps at
least one (initially empty) paragraph in every text frame. -/
abbrev TextFrame := List Paragraph

/-- A fresh paragraph: empty text, level 0, no explicit font. -/
def emptyPara : Paragraph := { text := "" }

/-- The text frame a fresh shape carries: a single empty paragraph. -/
def newTextFrame : TextFrame := [emptyPara]

/-- Replace the paragraph at position `j` (used for `paragraphs[0]` and for
the paragraph handle returned by `add_paragraph()`). Out-of-range indices
leave the frame unchanged; the script only ever writes in range. -/
def modifyPara (f : Paragraph → Paragraph) : TextFrame → Nat → TextFrame
  | [], _ => []
  | p :: tf, 0 => f p :: tf
  | p :: tf, j + 1 => p :: modifyPara f tf j

/-- Model of `p.text = t` on the paragraph at position `j`. -/
def setParaText (tf : TextFrame) (j : Nat) (t : String) : TextFrame :=
  modifyPara (fun p => { p with text := t }) tf j

/-- Model of `p.level = l` on the paragraph at position `j`. -/
def setParaLevel (tf : TextFrame) (j : Nat) (l : Nat) : TextFrame :=
  modifyPara (fun p => { p with level := l }) tf j

/-- Model of `p.font.name = n` on the paragraph at position `j`. -/
def setParaFontName (tf : TextFrame) (j : Nat) (n : String) : TextFrame :=
  modifyPara (fun p => { p with fontName := some n }) tf j

/-- Model of `p.font.size = Pt(n)` on the paragraph at position `j`. -/
def setParaFontSize (tf : TextFrame) (j : Nat) (n : Nat) : TextFrame :=
  modifyPara (fun p => { p with fontSizePt := some n }) tf j

/-- Model of `text_frame.add_paragraph()`: appends a fresh empty paragraph
at the end of the frame (the handle it returns is the last position). -/
def addParagraph (tf : TextFrame) : TextFrame := tf ++ [emptyPara]

/-- Model of `text_frame.clear()`: every paragraph but the first is
removed and the first paragraph loses its runs, leaving a single empty
paragraph. -/
def clearFrame (_tf : TextFrame) : TextFrame := [emptyPara]

/-- A slide layout, as far as the script observes it: whether it has a
title placeholder (so `slide.shapes.title` is not `None` on slides made
from it), and which non-title placeholder `idx` keys it provides (the
script only ever looks up `placeholders[1]`). -/
structure SlideLayout where
  hasTitle : Bool
  placeholderIdxs : List Nat
deriving DecidableEq, Repr

/-- A text box created by `slide.shapes.add_textbox(left, top, width,
height)`: its geometry (EMU coordinates, passed through verbatim), its
`word_wrap` flag, its text frame, and the solid fill colour, if
`fill.solid()` / `fill.fore_color.rgb` were applied (RGB triple). -/
structure TextBox where
  left : Int
  top : Int
  width : Int
  height : Int
  word_wrap : Bool
  frame : TextFrame
  fillRGB : Option (Nat × Nat × Nat)
deriving DecidableEq, Repr

/-- A slide: the index of the layout it was instantiated from, the title
placeholder's text frame (`none` when the layout has no title shape), the
non-title placeholders keyed by their `idx`, and the text boxes added to
its shape tree. A fresh slide clones its layout's placeholders, each with
a fresh empty text frame. -/
structure Slide where
  layoutIdx : Nat
  title : Option TextFrame
  placeholders : List (Nat × TextFrame)
  textboxes : List TextBox
deriving DecidableEq, Repr

/-- Model of `slide.placeholders[idx]` as a lookup: `none` models the
KeyError case. -/
def Slide.phFrame? (s : Slide) (idx : Nat) : Option TextFrame :=
  (s.placeholders.find? (fun pr => pr.1 == idx)).map (fun pr => pr.2)

/-- Overwrite the text frame of the placeholder keyed `idx` (no-op when
the slide has no such placeholder; the script checks first). -/
def Slide.setPhFrame (s : Slide) (idx : Nat) (tf : TextFrame) : Slide :=
  { s with placeholders :=
      s.placeholders.map (fun pr => if pr.1 == idx then (pr.1, tf) else pr) }

/-- Model of `shape.text = t` on the placeholder keyed `idx`: the frame is
replaced by a single paragraph holding `t`. -/
def Slide.setPhText (s : Slide) (idx : Nat) (t : String) : Slide :=
  s.setPhFrame idx [{ text := t }]

/-- Model of `slide.shapes.title.text = t`: AttributeError when the layout
provided no title shape (`slide.shapes.title` is `None`), otherwise the
title frame is replaced by a single paragraph holding `t`. -/
def Slide.setTitleText (s : Slide) (t : String) : Except PptxError Slide :=
  match s.title with
  | some _ => .ok { s with title := some [{ text := t }] }
  | none => .error .attributeError

/-- A presentation: its slide layouts and its (append-only) slide list. -/
structure Presentation where
  layouts : List SlideLayout
  slides : List Slide
deriving DecidableEq, Repr

/-- Model of `prs.slide_layouts[i]`: IndexError when out of range. -/
def getLayout (prs : Presentation) (i : Nat) : Except PptxError SlideLayout :=
  match prs.layouts[i]? with
  | some ly => .ok ly
  | none => .error .indexError

/-- The slide `prs.slides.add_slide(slide_layout)` creates: it records the
layout index and clones the layout's placeholders with fresh frames. -/
def newSlideFrom (ly : SlideLayout) (layoutIdx : Nat) : Slide :=
  { layoutIdx := layoutIdx
    title := if ly.hasTitle then some newTextFrame else none
    placeholders := ly.placeholderIdxs.map (fun i => (i, newTextFrame))
    textboxes := [] }

/-- Model of `prs.slides.add_slide(slide_layout)`: appends the fresh slide
and returns its position in the slide list as the slide handle. -/
def addSlide (prs : Presentation) (layoutIdx : Nat) (ly : SlideLayout) :
    Presentation × Nat :=
  ({ prs with slides := prs.slides ++ [newSlideFrom ly layoutIdx] },
   prs.slides.length)

/-- Apply a pure mutation to the slide a handle designates. -/
def updateSlide (prs : Presentation) (h : Nat) (f : Slide → Slide) :
    Presentation :=
  match prs.slides[h]? with
  | some s => { prs with slides := prs.slides.set h (f s) }
  | none => prs

/-- Apply a mutation that can raise to the slide a handle designates. -/
def updateSlideE (prs : Presentation) (h : Nat)
    (f : Slide → Except PptxError Slide) : Except PptxError Presentation :=
  match prs.slides[h]? with
  | some s => (f s).map (fun s' => { prs with slides := prs.slides.set h s' })
  | none => .error .indexError

/-- A value of the `content_points` list. The script passes either a plain
string (one level-0 bullet) or a `(text, sub_points)` tuple, discriminated
at runtime by `isinstance(point, tuple)`; the inductive mirrors that
dynamic distinction. -/
inductive ContentPoint where
  | str (s : String)
  | tup (s : String) (subs : List String)
deriving DecidableEq, Repr

/-- The paragraph handle the loop writes through: for `i == 0` it is
`text_frame.paragraphs[0]`, otherwise the one returned by
`text_frame.add_paragraph()` (the new last position). Returns the frame
after the possible append, together with the handle's position. -/
def paraTarget (tf : TextFrame) (i : Nat) : TextFrame × Nat :=
  if i == 0 then (tf, 0) else (addParagraph tf, tf.length)

/-- One iteration of the body-population loop of `create_content_slide`
(`for i, point in enumerate(content_points): ...`), acting on the body
text frame. A tuple writes its head at level 0 and then appends each
sub-point at level 1; a plain string is written at level 0. -/
def contentLoopStep (tf : TextFrame) (i : Nat) (point : ContentPoint) :
    TextFrame :=
  let start : TextFrame × Nat := paraTarget tf i
  match point with
  | .tup t subs =>
      let tf1 := setParaLevel (setParaText start.1 start.2 t) start.2 0
      subs.foldl
        (fun acc sub =>
          let acc1 := addParagraph acc
          setParaLevel (setParaText acc1 (acc1.length - 1) sub)
            (acc1.length - 1) 1)
        tf1
  | .str t => setParaLevel (setParaText start.1 start.2 t) start.2 0

/-- The body-population loop of `create_content_slide`, with `i` the
enumeration counter. -/
def contentLoopAux (tf : TextFrame) (i : Nat) :
    List ContentPoint → TextFrame
  | [] => tf
  | point :: rest => contentLoopAux (contentLoopStep tf i point) (i + 1) rest

/-- `create_title_slide(prs, title, subtitle="")` (source lines 13-25):
layout 0, add slide, bind `title_shape = slide.shapes.title` (a possible
`None`, only checked at assignment), bind
`subtitle_shape = slide.placeholders[1]` (KeyError if absent), set the
title text, and set the subtitle text only when `subtitle` is truthy
(non-empty). Returns the slide handle. -/
def create_title_slide (prs : Presentation) (title : String)
    (subtitle : String) : Except PptxError (Presentation × Nat) := do
  let slide_layout ← getLayout prs 0
  let res := addSlide prs 0 slide_layout
  let prs1 := res.1
  let slide := res.2
  let s ← match prs1.slides[slide]? with
    | some s => Except.ok s
    | none => Except.error PptxError.indexError
  let _subtitle_shape ← match s.phFrame? 1 with
    | some tf => Except.ok tf
    | none => Except.error PptxError.keyError
  let prs2 ← updateSlideE prs1 slide (fun s => s.setTitleText title)
  let prs3 :=
    if subtitle ≠ "" then
      updateSlide prs2 slide (fun s => s.setPhText 1 subtitle)
    else prs2
  return (prs3, slide)

/-- `create_content_slide(prs, title, content_points=None)` (source lines
27-58): layout 1, add slide, set the title text, and when
`content_points` is truthy (neither `None` nor the empty list) fetch the
body placeholder `slide.placeholders[1]` (KeyError if absent), clear its
text frame and run the body-population loop over it. -/
def create_content_slide (prs : Presentation) (title : String)
    (content_points : Option (List ContentPoint)) :
    Except PptxError (Presentation × Nat) := do
  let slide_layout ← getLayout prs 1
  let res := addSlide prs 1 slide_layout
  let prs1 := res.1
  let slide := res.2
  let prs2 ← updateSlideE prs1 slide (fun s => s.setTitleText title)
  match content_points with
  | none => return (prs2, slide)
  | some points =>
      if points.isEmpty then
        return (prs2, slide)
      else
        let prs3 ← updateSlideE prs2 slide (fun s =>
          match s.phFrame? 1 with
          | none => Except.error PptxError.keyError
          | some tf =>
              Except.ok (s.setPhFrame 1 (contentLoopAux (clearFrame tf) 0 points)))
        return (prs3, slide)

/-- `create_section_header(prs, section_title)` (source lines 60-68):
layout 2, add slide, set the title text. -/
def create_section_header (prs : Presentation) (section_title : String) :
    Except PptxError (Presentation × Nat) := do
  let slide_layout ← getLayout prs 2
  let res := addSlide prs 2 slide_layout
  let prs1 := res.1
  let slide := res.2
  let prs2 ← updateSlideE prs1 slide (fun s => s.setTitleText section_title)
  return (prs2, slide)

/-- `add_code_block(slide, code_text, left, top, width, height)` (source
lines 70-86): add a text box at the given geometry, enable word wrap, set
paragraph 0's text to `code_text`, its font to Courier New at `Pt(9)`,
then give the box a solid fill of `RGBColor(240, 240, 240)`. The box in
the slide's shape tree and the returned handle are the same object, so
both carry the final state. -/
def add_code_block (slide : Slide) (code_text : String)
    (left top width height : Int) : Slide × TextBox :=
  let textbox : TextBox :=
    { left := left, top := top, width := width, height := height,
      word_wrap := false, frame := newTextFrame, fillRGB := none }
  let textbox := { textbox with word_wrap := true }
  let styledFrame :=
    setParaFontSize
      (setParaFontName (setParaText textbox.frame 0 code_text) 0 "Courier New")
      0 9
  let textbox := { textbox with frame := styledFrame }
  let textbox := { textbox with fillRGB := some (240, 240, 240) }
  ({ slide with textboxes := slide.textboxes ++ [textbox] }, textbox)

/-! ## Reference flattening (the spec's description of the Bullet Renderer)

The spec describes the Bullet Renderer's output as: for each item in input
order, the pair `(item.text, 0)` immediately followed by `(child, 1)` for
each of the item's children in order. The next definitions state that
reference flattening in the spec's words, to be compared with the loop
translated from the source. -/

/-- The level-0 text of a content item (a plain string is its own text; a
tuple's text is its first component). -/
def pointText : ContentPoint → String
  | .str s => s
  | .tup t _ => t

/-- The children of a content item (a plain string has none). -/
def pointChildren : ContentPoint → List String
  | .str _ => []
  | .tup _ subs => subs

/-- The reference flattening from the spec: `(text, 0)` then each child as
`(child, 1)`, items in input order. -/
def refFlatten (points : List ContentPoint) : List (String × Nat) :=
  points.flatMap (fun pt => (pointText pt, 0) :: (pointChildren pt).map (fun c => (c, 1)))

/-- The observable (text, level) content of a paragraph. -/
def paraPair (p : Paragraph) : String × Nat := (p.text, p.level)

/-- The paragraphs one content item contributes. -/
def pointParas (pt : ContentPoint) : TextFrame :=
  { text := pointText pt, level := 0 } ::
    (pointChildren pt).map (fun c => { text := c, level := 1 })

/-- The paragraph list the reference flattening describes. -/
def flattenParas (points : List ContentPoint) : TextFrame :=
  points.flatMap pointParas

/-! ## Closed-form results of the three slide assemblers -/

/-- The slide `create_title_slide` leaves in the presentation: fresh slide
from layout 0, title set, and the subtitle placeholder written only when
the subtitle string is truthy. -/
def titleSlideResult (ly : SlideLayout) (t st : String) : Slide :=
  let s1 : Slide := { newSlideFrom ly 0 with title := some [{ text := t }] }
  if st ≠ "" then s1.setPhText 1 st else s1

/-- The slide `create_content_slide` produces before (or without) body
population: fresh slide from layout 1 with the title set. -/
def contentSlideBase (ly : SlideLayout) (t : String) : Slide :=
  { newSlideFrom ly 1 with title := some [{ text := t }] }

/-- The slide `create_content_slide` produces for a truthy
`content_points`: the body placeholder's frame is cleared and populated by
the loop. -/
def contentSlideFilled (ly : SlideLayout) (t : String)
    (points : List ContentPoint) : Slide :=
  (contentSlideBase ly t).setPhFrame 1
    (contentLoopAux (clearFrame newTextFrame) 0 points)

/-- The slide `create_section_header` produces: fresh slide from layout 2
with the title set. -/
def sectionSlideResult (ly : SlideLayout) (t : String) : Slide :=
  { newSlideFrom ly 2 with title := some [{ text := t }] }

/-! ## Claim-support definitions -/

/-- The three caller intents of the script: which slide-creation helper is
invoked. -/
inductive Intent where
  | title
  | content
  | sectionHeader
deriving DecidableEq, Repr

/-- The layout index each assembler hard-codes for its intent
(`slide_layouts[0]`, `[1]`, `[2]` at source lines 15, 29, 62). -/
def intentLayoutIdx : Intent → Nat
  | .title => 0
  | .content => 1
  | .sectionHeader => 2

/-- One slide was appended at the end of the slide list, the returned
handle points at it, and the earlier slides are untouched. -/
def appendsOneSlide (prs prs1 : Presentation) (h : Nat) : Prop :=
  prs1.slides.length = prs.slides.length + 1
  ∧ h = prs.slides.length
  ∧ prs1.slides.take prs.slides.length = prs.slides

/-- The slide the handle designates has its title set to `t` and every
placeholder frame still in its fresh default state. -/
def slideBodyUntouched (prs1 : Presentation) (h : Nat) (t : String) : Prop :=
  match prs1.slides[h]? with
  | some s => s.title = some [{ text := t }]
      ∧ ∀ pr ∈ s.placeholders, pr.2 = newTextFrame
  | none => False

/-- The fixed style attributes of a code-block text box: the first
paragraph's font name and size, and the box's fill colour. -/
def codeStyle (tb : TextBox) :
    Option (Option String × Option Nat) × Option (Nat × Nat × Nat) :=
  ((tb.frame.head?).map (fun p => (p.fontName, p.fontSizePt)), tb.fillRGB)

/-- A surface like the default python-pptx template as far as the script
observes it: layouts 0 (title), 1 (title and content) and 2 (section
header) all carry a title shape and an `idx = 1` placeholder. -/
def samplePrs : Presentation :=
  { layouts := [{ hasTitle := true, placeholderIdxs := [1] },
                { hasTitle := true, placeholderIdxs := [1] },
                { hasTitle := true, placeholderIdxs := [1] }],
    slides := [] }

/-- A surface whose layout 1 provides no `idx = 1` (body) placeholder. -/
def noBodyPrs : Presentation :=
  { layouts := [{ hasTitle := true, placeholderIdxs := [1] },
                { hasTitle := true, placeholderIdxs := [] },
                { hasTitle := true, placeholderIdxs := [1] }],
    slides := [] }

/-- Extract the successful outcome of an assembler call (defaulting to a
dummy on error; only used on calls that succeed). -/
def okOutcome (r : Except PptxError (Presentation × Nat)) :
    Presentation × Nat :=
  match r with
  | Except.ok pr => pr
  | Except.error _ => (samplePrs, 0)

/-- Concrete run: a title slide on the sample surface. -/
def sampleTitleRun : Presentation × Nat :=
  okOutcome (create_title_slide samplePrs "T" "S")

/-- Concrete run: a title slide with the default empty subtitle. -/
def sampleTitleRunNoSub : Presentation × Nat :=
  okOutcome (create_title_slide samplePrs "T" "")

/-- Concrete run: a content slide with a nested bullet list. -/
def sampleContentRun : Presentation × Nat :=
  okOutcome (create_content_slide samplePrs "X"
    (some [ContentPoint.tup "A" [], ContentPoint.tup "B" ["B1", "B2"]]))

/-- Concrete run: a content slide with `content_points = None`. -/
def sampleNoneContentRun : Presentation × Nat :=
  okOutcome (create_content_slide samplePrs "X" none)

/-- Concrete run: a content slide with an empty bullet list. -/
def sampleEmptyContentRun : Presentation × Nat :=
  okOutcome (create_content_slide samplePrs "X" (some []))

/-- Concrete run: a section header on the sample surface. -/
def sampleSectionRun : Presentation × Nat :=
  okOutcome (create_section_header samplePrs "Sec")

/-! ## Lemmas about the body-population loop -/

theorem modifyPara_append_len (f : Paragraph → Paragraph) (tf : TextFrame)
    (p : Paragraph) : modifyPara f (tf ++ [p]) tf.length = tf ++ [f p] := by
  induction tf with
  | nil => rfl
  | cons q tf ih => simp [modifyPara, ih]

theorem paraTarget_zero (tf : TextFrame) : paraTarget tf 0 = (tf, 0) := rfl

theorem paraTarget_ne_zero (tf : TextFrame) (i : Nat) (hi : i ≠ 0) :
    paraTarget tf i = (addParagraph tf, tf.length) := by
  simp [paraTarget, hi]

theorem setParaText_append (tf : TextFrame) (t : String) :
    setParaText (addParagraph tf) tf.length t
      = tf ++ [{ text := t : Paragraph }] := by
  simpa [addParagraph, setParaText, emptyPara] using
    modifyPara_append_len (fun p => { p with text := t }) tf emptyPara

theorem setParaLevel_append (tf : TextFrame) (t : String) (l : Nat) :
    setParaLevel (tf ++ [{ text := t : Paragraph }]) tf.length l
      = tf ++ [{ text := t, level := l : Paragraph }] := by
  simpa [setParaLevel] using
    modifyPara_append_len (fun p => { p with level := l }) tf
      ({ text := t : Paragraph })

theorem subPointFold (subs : List String) (acc : TextFrame) :
    subs.foldl
      (fun acc sub =>
        setParaLevel
          (setParaText (addParagraph acc) ((addParagraph acc).length - 1) sub)
          ((addParagraph acc).length - 1) 1) acc
    = acc ++ subs.map (fun c => { text := c, level := 1 }) := by
  induction subs generalizing acc with
  | nil => simp
  | cons c subs ih =>
      have h1 : (addParagraph acc).length - 1 = acc.length := by
        simp [addParagraph]
      simp only [List.foldl_cons, h1, setParaText_append, setParaLevel_append, ih]
      simp

theorem contentLoopStep_ne_zero (tf : TextFrame) (i : Nat) (hi : i ≠ 0)
    (pt : ContentPoint) :
    contentLoopStep tf i pt = tf ++ pointParas pt := by
  cases pt with
  | str t =>
      simp only [contentLoopStep, paraTarget_ne_zero tf i hi]
      simp only [setParaText_append, setParaLevel_append]
      simp [pointParas, pointText, pointChildren]
  | tup t subs =>
      simp only [contentLoopStep, paraTarget_ne_zero tf i hi]
      simp only [setParaText_append, setParaLevel_append, subPointFold]
      simp [pointParas, pointText, pointChildren]

theorem contentLoopStep_zero (pt : ContentPoint) :
    contentLoopStep [emptyPara] 0 pt = pointParas pt := by
  cases pt with
  | str t =>
      simp only [contentLoopStep, paraTarget_zero]
      simp [setParaText, setParaLevel, modifyPara, emptyPara, pointParas,
        pointText, pointChildren]
  | tup t subs =>
      simp only [contentLoopStep, paraTarget_zero]
      have hinit : setParaLevel (setParaText [emptyPara] 0 t) 0 0
          = [{ text := t, level := 0 : Paragraph }] := by
        simp [setParaText, setParaLevel, modifyPara, emptyPara]
      have h0 : ([{ text := t, level := 0 : Paragraph }] : TextFrame)
          = [] ++ [{ text := t, level := 0 : Paragraph }] := by simp
      simp only [hinit, subPointFold]
      simp [pointParas, pointText, pointChildren]

theorem contentLoopAux_ne_zero (points : List ContentPoint) :
    ∀ (tf : TextFrame) (i : Nat), i ≠ 0 →
      contentLoopAux tf i points = tf ++ flattenParas points := by
  induction points with
  | nil => intro tf i _; simp [contentLoopAux, flattenParas]
  | cons pt rest ih =>
      intro tf i hi
      simp only [contentLoopAux]
      rw [contentLoopStep_ne_zero tf i hi pt, ih _ (i + 1) (Nat.succ_ne_zero i)]
      simp [flattenParas]

theorem contentLoop_eq_flattenParas (points : List ContentPoint)
    (h : points ≠ []) :
    contentLoopAux (clearFrame newTextFrame) 0 points = flattenParas points := by
  cases points with
  | nil => exact absurd rfl h
  | cons pt rest =>
      simp only [contentLoopAux, clearFrame]
      rw [contentLoopStep_zero pt,
        contentLoopAux_ne_zero rest (pointParas pt) 1 Nat.one_ne_zero]
      simp [flattenParas]

theorem map_paraPair_flattenParas (points : List ContentPoint) :
    (flattenParas points).map paraPair = refFlatten points := by
  induction points with
  | nil => rfl
  | cons pt rest ih =>
      simp only [flattenParas, refFlatten, List.flatMap_cons] at *
      simp only [List.map_append, ih]
      congr 1
      cases pt <;> simp [pointParas, paraPair, pointText, pointChildren,
        List.map_map, Function.comp]

theorem refFlatten_length (points : List ContentPoint) :
    (refFlatten points).length
      = (points.map (fun pt => 1 + (pointChildren pt).length)).sum := by
  induction points with
  | nil => rfl
  | cons pt rest ih =>
      simp [refFlatten, List.flatMap_cons] at *
      simp [ih]
      cases pt <;> simp [pointChildren] <;> omega

theorem refFlatten_levels (points : List ContentPoint) :
    ∀ q ∈ refFlatten points, q.2 = 0 ∨ q.2 = 1 := by
  induction points with
  | nil => intro q hq; simp [refFlatten] at hq
  | cons pt rest ih =>
      intro q hq
      simp only [refFlatten, List.flatMap_cons, List.mem_append] at hq
      rcases hq with hq | hq
      · rcases List.mem_cons.mp hq with h | h
        · left; rw [h]
        · rcases List.mem_map.mp h with ⟨c, _, hc⟩
          right; rw [← hc]
      · exact ih q hq

/-! ## Except and list helpers -/

theorem exceptBind_ok {α β : Type} (a : α) (f : α → Except PptxError β) :
    (Except.ok a >>= f) = f a := rfl

theorem exceptBind_error {α β : Type} (e : PptxError)
    (f : α → Except PptxError β) :
    ((Except.error e : Except PptxError α) >>= f) = Except.error e := rfl

theorem exceptMap_ok {α β : Type} (f : α → β) (a : α) :
    Except.map f (Except.ok a : Except PptxError α) = Except.ok (f a) := rfl

theorem exceptMap_error {α β : Type} (f : α → β) (e : PptxError) :
    Except.map f (Except.error e : Except PptxError α) = Except.error e := rfl

theorem exceptFmap_ok {α β : Type} (f : α → β) (a : α) :
    (f <$> (Except.ok a : Except PptxError α)) = Except.ok (f a) := rfl

theorem exceptFmap_error {α β : Type} (f : α → β) (e : PptxError) :
    (f <$> (Except.error e : Except PptxError α)) = Except.error e := rfl

theorem getElem?_append_len {α : Type} (xs : List α) (a : α) :
    (xs ++ [a])[xs.length]? = some a := by
  induction xs with
  | nil => rfl
  | cons x xs ih => simp [ih]

theorem set_append_len {α : Type} (xs : List α) (a b : α) :
    (xs ++ [a]).set xs.length b = xs ++ [b] := by
  induction xs with
  | nil => rfl
  | cons x xs ih => simp [List.set, ih]

theorem take_append_len {α : Type} (xs ys : List α) :
    (xs ++ ys).take xs.length = xs := by
  induction xs with
  | nil => rfl
  | cons x xs ih => simp [List.take, ih]

theorem find?_pair_map {β : Type} (b : β) (idxs : List Nat) (j : Nat) :
    ((idxs.map (fun i => (i, b))).find? (fun pr => pr.1 == j)).map
        (fun pr => pr.2)
      = if j ∈ idxs then some b else none := by
  induction idxs with
  | nil => rfl
  | cons i is ih =>
      by_cases h : i = j
      · subst h
        simp [List.find?_cons_of_pos]
      · rw [List.map_cons, List.find?_cons_of_neg _ (by simp [h]), ih]
        by_cases hj : j ∈ is <;> simp [hj, h, Ne.symm h]

theorem phFrame?_newSlideFrom (ly : SlideLayout) (k j : Nat) :
    (newSlideFrom ly k).phFrame? j
      = if j ∈ ly.placeholderIdxs then some newTextFrame else none := by
  simp only [newSlideFrom, Slide.phFrame?]
  exact find?_pair_map newTextFrame ly.placeholderIdxs j

theorem phFrame?_setPhFrame (s : Slide) (j : Nat) (tf : TextFrame) :
    (s.setPhFrame j tf).phFrame? j = (s.phFrame? j).map (fun _ => tf) := by
  simp only [Slide.setPhFrame, Slide.phFrame?]
  induction s.placeholders with
  | nil => rfl
  | cons pr rest ih =>
      by_cases h : pr.1 = j
      · simp [List.find?_cons_of_pos, h]
      · rw [List.map_cons, if_neg (by simp [h]),
          List.find?_cons_of_neg _ (by simp [h]),
          List.find?_cons_of_neg _ (by simp [h])]
        exact ih

theorem newSlideFrom_title (ly : SlideLayout) (k : Nat) :
    (newSlideFrom ly k).title = if ly.hasTitle then some newTextFrame else none :=
  rfl

theorem newSlideFrom_layoutIdx (ly : SlideLayout) (k : Nat) :
    (newSlideFrom ly k).layoutIdx = k := rfl

theorem newSlideFrom_placeholders (ly : SlideLayout) (k : Nat) :
    (newSlideFrom ly k).placeholders
      = ly.placeholderIdxs.map (fun i => (i, newTextFrame)) := rfl

theorem newSlideFrom_textboxes (ly : SlideLayout) (k : Nat) :
    (newSlideFrom ly k).textboxes = [] := rfl

theorem phFrame?_mk (a : Nat) (ti : Option TextFrame) (tb : List TextBox)
    (idxs : List Nat) (j : Nat) :
    (Slide.mk a ti (idxs.map (fun i => (i, newTextFrame))) tb).phFrame? j
      = if j ∈ idxs then some newTextFrame else none := by
  simp only [Slide.phFrame?]
  exact find?_pair_map newTextFrame idxs j

theorem create_section_header_eq (prs : Presentation) (t : String) :
    create_section_header prs t =
      match prs.layouts[2]? with
      | none => Except.error PptxError.indexError
      | some ly =>
          if ly.hasTitle then
            Except.ok
              ({ prs with slides := prs.slides ++ [sectionSlideResult ly t] },
               prs.slides.length)
          else Except.error PptxError.attributeError := by
  cases hl : prs.layouts[2]? with
  | none =>
      simp [create_section_header, getLayout, hl, exceptBind_error]
  | some ly =>
      obtain ⟨ht, idxs⟩ := ly
      cases ht with
      | false =>
          simp [create_section_header, getLayout, hl, exceptBind_ok,
            exceptBind_error, exceptMap_error, exceptFmap_error, addSlide,
            updateSlideE, getElem?_append_len, newSlideFrom_title,
            Slide.setTitleText]
      | true =>
          simp [create_section_header, getLayout, hl, exceptBind_ok,
            exceptMap_ok, exceptFmap_ok, addSlide, updateSlideE,
            getElem?_append_len, set_append_len, newSlideFrom_title,
            Slide.setTitleText, sectionSlideResult]

theorem create_title_slide_eq (prs : Presentation) (t st : String) :
    create_title_slide prs t st =
      match prs.layouts[0]? with
      | none => Except.error PptxError.indexError
      | some ly =>
          if 1 ∈ ly.placeholderIdxs then
            if ly.hasTitle then
              Except.ok
                ({ prs with
                    slides := prs.slides ++ [titleSlideResult ly t st] },
                 prs.slides.length)
            else Except.error PptxError.attributeError
          else Except.error PptxError.keyError := by
  cases hl : prs.layouts[0]? with
  | none =>
      simp [create_title_slide, getLayout, hl, exceptBind_error]
  | some ly =>
      obtain ⟨ht, idxs⟩ := ly
      by_cases h1 : 1 ∈ idxs
      · cases ht with
        | false =>
            simp [create_title_slide, getLayout, hl, exceptBind_ok,
              exceptBind_error, exceptMap_error, exceptFmap_error, addSlide,
              updateSlideE, getElem?_append_len, newSlideFrom_title,
              newSlideFrom_placeholders, phFrame?_mk, phFrame?_newSlideFrom, h1, Slide.setTitleText]
        | true =>
            by_cases hst : st = ""
            · subst hst
              simp [create_title_slide, getLayout, hl, exceptBind_ok,
                exceptMap_ok, exceptFmap_ok, addSlide, updateSlide,
                updateSlideE, getElem?_append_len, set_append_len,
                newSlideFrom_title, newSlideFrom_placeholders,
                newSlideFrom_layoutIdx, newSlideFrom_textboxes, phFrame?_mk,
                phFrame?_newSlideFrom, h1, Slide.setTitleText, titleSlideResult]
            · simp [create_title_slide, getLayout, hl, exceptBind_ok,
                exceptMap_ok, exceptFmap_ok, addSlide, updateSlide,
                updateSlideE, getElem?_append_len, set_append_len,
                newSlideFrom_title, newSlideFrom_placeholders,
                newSlideFrom_layoutIdx, newSlideFrom_textboxes, phFrame?_mk,
                phFrame?_newSlideFrom, h1, hst, Slide.setTitleText, titleSlideResult, Slide.setPhText,
                Slide.setPhFrame]
      · cases ht <;>
          simp [create_title_slide, getLayout, hl, exceptBind_ok,
            exceptBind_error, exceptMap_error, exceptFmap_error, addSlide,
            updateSlideE, getElem?_append_len, newSlideFrom_title,
            newSlideFrom_placeholders, phFrame?_mk, phFrame?_newSlideFrom, h1, Slide.setTitleText]

theorem create_content_slide_eq (prs : Presentation) (t : String)
    (cp : Option (List ContentPoint)) :
    create_content_slide prs t cp =
      match prs.layouts[1]? with
      | none => Except.error PptxError.indexError
      | some ly =>
          if ly.hasTitle then
            match cp with
            | none =>
                Except.ok
                  ({ prs with
                      slides := prs.slides ++ [contentSlideBase ly t] },
                   prs.slides.length)
            | some points =>
                if points.isEmpty then
                  Except.ok
                    ({ prs with
                        slides := prs.slides ++ [contentSlideBase ly t] },
                     prs.slides.length)
                else if 1 ∈ ly.placeholderIdxs then
                  Except.ok
                    ({ prs with
                        slides :=
                          prs.slides ++ [contentSlideFilled ly t points] },
                     prs.slides.length)
                else Except.error PptxError.keyError
          else Except.error PptxError.attributeError := by
  cases hl : prs.layouts[1]? with
  | none =>
      simp [create_content_slide, getLayout, hl, exceptBind_error]
  | some ly =>
      obtain ⟨ht, idxs⟩ := ly
      cases ht with
      | false =>
          cases cp with
          | none =>
              simp [create_content_slide, getLayout, hl, exceptBind_ok,
                exceptBind_error, exceptMap_error, exceptFmap_error, addSlide,
                updateSlideE, getElem?_append_len, newSlideFrom_title,
                Slide.setTitleText]
          | some points =>
              cases points <;>
                simp [create_content_slide, getLayout, hl, exceptBind_ok,
                  exceptBind_error, exceptMap_error, exceptFmap_error,
                  addSlide, updateSlideE, getElem?_append_len,
                  newSlideFrom_title, Slide.setTitleText]
      | true =>
          cases cp with
          | none =>
              simp [create_content_slide, getLayout, hl, exceptBind_ok,
                exceptMap_ok, exceptFmap_ok, addSlide, updateSlideE,
                getElem?_append_len, set_append_len, newSlideFrom_title,
                Slide.setTitleText, contentSlideBase]
          | some points =>
              cases points with
              | nil =>
                  simp [create_content_slide, getLayout, hl, exceptBind_ok,
                    exceptMap_ok, exceptFmap_ok, addSlide, updateSlideE,
                    getElem?_append_len, set_append_len, newSlideFrom_title,
                    Slide.setTitleText, contentSlideBase]
              | cons p rest =>
                  by_cases h1 : 1 ∈ idxs
                  · simp [create_content_slide, getLayout, hl, exceptBind_ok,
                      exceptMap_ok, exceptFmap_ok, addSlide, updateSlideE,
                      getElem?_append_len, set_append_len, newSlideFrom_title,
                      newSlideFrom_placeholders, newSlideFrom_layoutIdx,
                      newSlideFrom_textboxes, phFrame?_mk, h1,
                      Slide.setTitleText, contentSlideBase,
                      contentSlideFilled, Slide.setPhFrame]
                  · simp [create_content_slide, getLayout, hl, exceptBind_ok,
                      exceptBind_error, exceptMap_ok, exceptMap_error,
                      exceptFmap_error, addSlide, updateSlideE,
                      getElem?_append_len, set_append_len, newSlideFrom_title,
                      newSlideFrom_placeholders, phFrame?_mk, h1,
                      Slide.setTitleText]

/-! ## Facts about the assembler result slides -/

theorem titleSlideResult_layoutIdx (ly : SlideLayout) (t st : String) :
    (titleSlideResult ly t st).layoutIdx = 0 := by
  by_cases hst : st = "" <;>
    simp [titleSlideResult, hst, Slide.setPhText, Slide.setPhFrame,
      newSlideFrom_layoutIdx]

theorem contentSlideBase_layoutIdx (ly : SlideLayout) (t : String) :
    (contentSlideBase ly t).layoutIdx = 1 := rfl

theorem contentSlideFilled_layoutIdx (ly : SlideLayout) (t : String)
    (points : List ContentPoint) :
    (contentSlideFilled ly t points).layoutIdx = 1 := rfl

theorem sectionSlideResult_layoutIdx (ly : SlideLayout) (t : String) :
    (sectionSlideResult ly t).layoutIdx = 2 := rfl

theorem contentSlideBase_title (ly : SlideLayout) (t : String) :
    (contentSlideBase ly t).title = some [{ text := t }] := rfl

theorem contentSlideBase_placeholders (ly : SlideLayout) (t : String) :
    (contentSlideBase ly t).placeholders
      = ly.placeholderIdxs.map (fun i => (i, newTextFrame)) := rfl

theorem contentSlideBase_phFrame? (ly : SlideLayout) (t : String) (j : Nat) :
    (contentSlideBase ly t).phFrame? j
      = if j ∈ ly.placeholderIdxs then some newTextFrame else none := by
  have h : (contentSlideBase ly t).phFrame? j = (newSlideFrom ly 1).phFrame? j :=
    rfl
  rw [h, phFrame?_newSlideFrom]

theorem contentSlideFilled_phFrame? (ly : SlideLayout) (t : String)
    (points : List ContentPoint) (h1 : 1 ∈ ly.placeholderIdxs) :
    (contentSlideFilled ly t points).phFrame? 1
      = some (contentLoopAux (clearFrame newTextFrame) 0 points) := by
  simp [contentSlideFilled, phFrame?_setPhFrame, contentSlideBase_phFrame?, h1]

theorem titleSlideResult_title (ly : SlideLayout) (t st : String) :
    (titleSlideResult ly t st).title = some [{ text := t }] := by
  by_cases hst : st = "" <;>
    simp [titleSlideResult, hst, Slide.setPhText, Slide.setPhFrame]

theorem titleSlideResult_empty_sub (ly : SlideLayout) (t : String) :
    titleSlideResult ly t ""
      = { newSlideFrom ly 0 with title := some [{ text := t }] } := by
  simp [titleSlideResult]

theorem titleSlideResult_phFrame? (ly : SlideLayout) (t st : String)
    (h1 : 1 ∈ ly.placeholderIdxs) (hst : st ≠ "") :
    (titleSlideResult ly t st).phFrame? 1 = some [{ text := st }] := by
  have hb : ({ newSlideFrom ly 0 with
      title := some [{ text := t }] } : Slide).phFrame? 1
      = (newSlideFrom ly 0).phFrame? 1 := rfl
  simp [titleSlideResult, hst, Slide.setPhText, phFrame?_setPhFrame, hb,
    phFrame?_newSlideFrom, h1]

theorem titleSlideResult_frames_len (ly : SlideLayout) (t st : String) :
    ∀ pr ∈ (titleSlideResult ly t st).placeholders, pr.2.length = 1 := by
  by_cases hst : st = ""
  · intro pr hpr
    simp [titleSlideResult, hst, newSlideFrom_placeholders] at hpr
    obtain ⟨i, _, rfl⟩ := hpr
    rfl
  · intro pr hpr
    simp [titleSlideResult, hst, Slide.setPhText, Slide.setPhFrame,
      newSlideFrom_placeholders] at hpr
    obtain ⟨i, _, rfl⟩ := hpr
    by_cases hi : i = 1 <;> simp [hi, newTextFrame]

theorem titleSlideResult_textboxes (ly : SlideLayout) (t st : String) :
    (titleSlideResult ly t st).textboxes = [] := by
  by_cases hst : st = "" <;>
    simp [titleSlideResult, hst, Slide.setPhText, Slide.setPhFrame,
      newSlideFrom_textboxes]

/-! ## The claims -/

/-- C1: the body-population loop of `create_content_slide` equals the
reference flattening: for every (non-empty, since the loop only runs on a
truthy list) item sequence it emits, per item in order, `(text, 0)`
followed by each child as `(child, 1)`; hence the output length is the sum
of `1 + len(children)` over the items, every level is 0 or 1, and on
`[("A", []), ("B", ["B1", "B2"])]` the output is exactly
`[("A",0), ("B",0), ("B1",1), ("B2",1)]`. -/
theorem claim_C1 (points : List ContentPoint) (hne : points ≠ []) :
    (contentLoopAux (clearFrame newTextFrame) 0 points).map paraPair
        = refFlatten points
    ∧ (contentLoopAux (clearFrame newTextFrame) 0 points).length
        = (points.map (fun pt => 1 + (pointChildren pt).length)).sum
    ∧ (∀ q ∈ (contentLoopAux (clearFrame newTextFrame) 0 points).map paraPair,
        q.2 = 0 ∨ q.2 = 1)
    ∧ (contentLoopAux (clearFrame newTextFrame) 0
          [ContentPoint.tup "A" [], ContentPoint.tup "B" ["B1", "B2"]]).map
            paraPair
        = [("A", 0), ("B", 0), ("B1", 1), ("B2", 1)] := by
  have hf := contentLoop_eq_flattenParas points hne
  refine ⟨?_, ?_, ?_, ?_⟩
  · rw [hf, map_paraPair_flattenParas]
  · rw [hf]
    have h2 : (flattenParas points).length = (refFlatten points).length := by
      rw [← map_paraPair_flattenParas]
      simp
    rw [h2, refFlatten_length]
  · intro q hq
    rw [hf, map_paraPair_flattenParas] at hq
    exact refFlatten_levels points q hq
  · rfl

/-- Witness for C1: the hypothesis holds and the flattening equation is
realised at the concrete input `[str "x"]`. -/
theorem claim_C1_witness :
    ([ContentPoint.str "x"] ≠ [])
    ∧ (contentLoopAux (clearFrame newTextFrame) 0 [ContentPoint.str "x"]).map
          paraPair
        = refFlatten [ContentPoint.str "x"] :=
  ⟨by simp, (claim_C1 [ContentPoint.str "x"] (by simp)).1⟩

/-- C4: `add_code_block` appends exactly one text box at the requested
geometry, with word wrap on, the code text verbatim in one paragraph
styled Courier New at 9 pt, and a solid RGB(240, 240, 240) fill; two code
blocks always share the same style attributes. -/
theorem claim_C4 (slide : Slide) (code : String) (l0 t0 w0 h0 : Int)
    (slide2 : Slide) (code2 : String) (l2 t2 w2 h2 : Int) :
    (add_code_block slide code l0 t0 w0 h0).1.textboxes
        = slide.textboxes ++ [(add_code_block slide code l0 t0 w0 h0).2]
    ∧ (add_code_block slide code l0 t0 w0 h0).2.left = l0
    ∧ (add_code_block slide code l0 t0 w0 h0).2.top = t0
    ∧ (add_code_block slide code l0 t0 w0 h0).2.width = w0
    ∧ (add_code_block slide code l0 t0 w0 h0).2.height = h0
    ∧ (add_code_block slide code l0 t0 w0 h0).2.word_wrap = true
    ∧ (add_code_block slide code l0 t0 w0 h0).2.frame
        = [{ text := code, level := 0, fontName := some "Courier New",
             fontSizePt := some 9 }]
    ∧ (add_code_block slide code l0 t0 w0 h0).2.fillRGB = some (240, 240, 240)
    ∧ codeStyle (add_code_block slide code l0 t0 w0 h0).2
        = codeStyle (add_code_block slide2 code2 l2 t2 w2 h2).2 :=
  ⟨rfl, rfl, rfl, rfl, rfl, rfl, rfl, rfl, rfl⟩

theorem contentLoopStep_str_tup (tf : TextFrame) (i : Nat) (s : String) :
    contentLoopStep tf i (ContentPoint.str s)
      = contentLoopStep tf i (ContentPoint.tup s []) := rfl

theorem contentLoopAux_str_tup (pre suf : List ContentPoint) (s : String) :
    ∀ (tf : TextFrame) (i : Nat),
      contentLoopAux tf i (pre ++ ContentPoint.str s :: suf)
        = contentLoopAux tf i (pre ++ ContentPoint.tup s [] :: suf) := by
  induction pre with
  | nil =>
      intro tf i
      simp only [List.nil_append, contentLoopAux, contentLoopStep_str_tup]
  | cons q pre ih =>
      intro tf i
      simp only [List.cons_append, contentLoopAux]
      exact ih _ _

/-- C10: a plain string entry of `content_points` renders exactly like the
childless tuple `(s, [])` at the same position: the two invocations of
`create_content_slide` produce identical results. -/
theorem claim_C10 (prs : Presentation) (t s : String)
    (pre suf : List ContentPoint) :
    create_content_slide prs t (some (pre ++ ContentPoint.str s :: suf))
      = create_content_slide prs t (some (pre ++ ContentPoint.tup s [] :: suf)) := by
  have e1 : (pre ++ ContentPoint.str s :: suf).isEmpty = false := by
    cases pre <;> rfl
  have e2 : (pre ++ ContentPoint.tup s [] :: suf).isEmpty = false := by
    cases pre <;> rfl
  rw [create_content_slide_eq, create_content_slide_eq]
  cases prs.layouts[1]? with
  | none => rfl
  | some ly =>
      by_cases hT : ly.hasTitle <;>
        simp [hT, e1, e2, contentSlideFilled, contentLoopAux_str_tup]

/-- C2 counterexample: on a surface whose layout 1 has no body
placeholder, `create_content_slide` with a non-empty items list raises
KeyError instead of completing silently, refuting the claimed silent
tolerance. -/
theorem claim_C2_counterexample :
    create_content_slide noBodyPrs "X" (some [ContentPoint.str "a"])
      = Except.error PptxError.keyError := rfl

/-- C2 amended: when the selected layout has no body placeholder, a
non-empty items sequence makes `create_content_slide` raise KeyError (the
`slide.placeholders[1]` lookup fails); body population is skipped
silently only when the items sequence is empty (or absent). -/
theorem claim_C2 (prs : Presentation) (t : String) (points : List ContentPoint)
    (ly : SlideLayout) (hl : prs.layouts[1]? = some ly)
    (hT : ly.hasTitle = true) (hnb : 1 ∉ ly.placeholderIdxs)
    (hne : points ≠ []) :
    create_content_slide prs t (some points) = Except.error PptxError.keyError
    ∧ create_content_slide prs t (some [])
        = Except.ok
            ({ prs with slides := prs.slides ++ [contentSlideBase ly t] },
             prs.slides.length) := by
  have hE : points.isEmpty = false := by
    cases points with
    | nil => exact absurd rfl hne
    | cons p rest => rfl
  constructor
  · rw [create_content_slide_eq, hl]
    simp [hT, hE, hnb]
  · rw [create_content_slide_eq, hl]
    simp [hT]

/-- Witness for C2 at the concrete no-body surface. -/
theorem claim_C2_witness :
    create_content_slide noBodyPrs "X" (some [ContentPoint.str "a"])
      = Except.error PptxError.keyError :=
  (claim_C2 noBodyPrs "X" [ContentPoint.str "a"]
      { hasTitle := true, placeholderIdxs := [] }
      rfl rfl (by simp) (by simp)).1

/-- C3: layout selection is a fixed, deterministic function of the intent
alone: the title assembler always instantiates layout 0, the content
assembler layout 1, the section-header assembler layout 2; repeating a
call gives the same result, and the Title intent never yields the Content
layout. -/
theorem claim_C3 (prs : Presentation) (t st : String)
    (cp : Option (List ContentPoint)) :
    (∀ prs1 h1, create_title_slide prs t st = Except.ok (prs1, h1) →
        (prs1.slides[h1]?).map (fun s => s.layoutIdx)
          = some (intentLayoutIdx Intent.title))
    ∧ (∀ prs2 h2, create_content_slide prs t cp = Except.ok (prs2, h2) →
        (prs2.slides[h2]?).map (fun s => s.layoutIdx)
          = some (intentLayoutIdx Intent.content))
    ∧ (∀ prs3 h3, create_section_header prs t = Except.ok (prs3, h3) →
        (prs3.slides[h3]?).map (fun s => s.layoutIdx)
          = some (intentLayoutIdx Intent.sectionHeader))
    ∧ create_title_slide prs t st = create_title_slide prs t st
    ∧ intentLayoutIdx Intent.title ≠ intentLayoutIdx Intent.content := by
  refine ⟨?_, ?_, ?_, rfl, by decide⟩
  · intro prs1 h1 e
    rw [create_title_slide_eq] at e
    split at e
    · simp at e
    · split at e
      · split at e
        · simp only [Except.ok.injEq, Prod.mk.injEq] at e
          obtain ⟨rfl, rfl⟩ := e
          simp [getElem?_append_len, titleSlideResult_layoutIdx,
            intentLayoutIdx]
        · simp at e
      · simp at e
  · intro prs2 h2 e
    rw [create_content_slide_eq] at e
    split at e
    · simp at e
    · split at e
      · split at e
        · simp only [Except.ok.injEq, Prod.mk.injEq] at e
          obtain ⟨rfl, rfl⟩ := e
          simp [getElem?_append_len, contentSlideBase_layoutIdx,
            intentLayoutIdx]
        · split at e
          · simp only [Except.ok.injEq, Prod.mk.injEq] at e
            obtain ⟨rfl, rfl⟩ := e
            simp [getElem?_append_len, contentSlideBase_layoutIdx,
              intentLayoutIdx]
          · split at e
            · simp only [Except.ok.injEq, Prod.mk.injEq] at e
              obtain ⟨rfl, rfl⟩ := e
              simp [getElem?_append_len, contentSlideFilled_layoutIdx,
                intentLayoutIdx]
            · simp at e
      · simp at e
  · intro prs3 h3 e
    rw [create_section_header_eq] at e
    split at e
    · simp at e
    · split at e
      · simp only [Except.ok.injEq, Prod.mk.injEq] at e
        obtain ⟨rfl, rfl⟩ := e
        simp [getElem?_append_len, sectionSlideResult_layoutIdx,
          intentLayoutIdx]
      · simp at e

/-- Witness for C3: the title conjunct realised at a concrete run on the
sample surface. -/
theorem claim_C3_witness :
    (sampleTitleRun.1.slides[sampleTitleRun.2]?).map (fun s => s.layoutIdx)
      = some (intentLayoutIdx Intent.title) :=
  (claim_C3 samplePrs "T" "S" (some [])).1 sampleTitleRun.1 sampleTitleRun.2
    (by rfl)

theorem create_content_slide_none_eq (prs : Presentation) (t : String) :
    create_content_slide prs t none =
      match prs.layouts[1]? with
      | none => Except.error PptxError.indexError
      | some ly =>
          if ly.hasTitle then
            Except.ok
              ({ prs with slides := prs.slides ++ [contentSlideBase ly t] },
               prs.slides.length)
          else Except.error PptxError.attributeError := by
  rw [create_content_slide_eq]

theorem create_content_slide_nil_eq (prs : Presentation) (t : String) :
    create_content_slide prs t (some []) =
      match prs.layouts[1]? with
      | none => Except.error PptxError.indexError
      | some ly =>
          if ly.hasTitle then
            Except.ok
              ({ prs with slides := prs.slides ++ [contentSlideBase ly t] },
               prs.slides.length)
          else Except.error PptxError.attributeError := by
  rw [create_content_slide_eq]
  rcases prs.layouts[1]? with _ | ly
  · rfl
  · by_cases hT : ly.hasTitle <;> simp [hT]

theorem create_content_slide_filled_eq (prs : Presentation) (t : String)
    (points : List ContentPoint) (hne : points ≠ []) :
    create_content_slide prs t (some points) =
      match prs.layouts[1]? with
      | none => Except.error PptxError.indexError
      | some ly =>
          if ly.hasTitle then
            if 1 ∈ ly.placeholderIdxs then
              Except.ok
                ({ prs with
                    slides := prs.slides ++ [contentSlideFilled ly t points] },
                 prs.slides.length)
            else Except.error PptxError.keyError
          else Except.error PptxError.attributeError := by
  have hE : points.isEmpty = false := by
    cases points with
    | nil => exact absurd rfl hne
    | cons p rest => rfl
  rw [create_content_slide_eq]
  rcases prs.layouts[1]? with _ | ly
  · rfl
  · by_cases hT : ly.hasTitle <;> simp [hT, hE]

/-- C5: for an absent or empty items sequence, `create_content_slide`
issues no paragraph operation against the body region: every placeholder
of the created slide keeps its fresh default frame, while the title is
still set and the slide is still created. -/
theorem claim_C5 (prs : Presentation) (t : String) :
    (∀ prs1 h1, create_content_slide prs t none = Except.ok (prs1, h1) →
        slideBodyUntouched prs1 h1 t)
    ∧ (∀ prs2 h2, create_content_slide prs t (some []) = Except.ok (prs2, h2) →
        slideBodyUntouched prs2 h2 t) := by
  constructor
  · intro prs1 h1 e
    rw [create_content_slide_none_eq] at e
    split at e
    · simp at e
    · split at e
      · simp only [Except.ok.injEq, Prod.mk.injEq] at e
        obtain ⟨rfl, rfl⟩ := e
        simp only [slideBodyUntouched, getElem?_append_len]
        refine ⟨rfl, ?_⟩
        intro pr hpr
        rw [contentSlideBase_placeholders] at hpr
        obtain ⟨i, hi, rfl⟩ := List.mem_map.mp hpr
        rfl
      · simp at e
  · intro prs2 h2 e
    rw [create_content_slide_nil_eq] at e
    split at e
    · simp at e
    · split at e
      · simp only [Except.ok.injEq, Prod.mk.injEq] at e
        obtain ⟨rfl, rfl⟩ := e
        simp only [slideBodyUntouched, getElem?_append_len]
        refine ⟨rfl, ?_⟩
        intro pr hpr
        rw [contentSlideBase_placeholders] at hpr
        obtain ⟨i, hi, rfl⟩ := List.mem_map.mp hpr
        rfl
      · simp at e

/-- Witness for C5: the `None` conjunct realised at a concrete run. -/
theorem claim_C5_witness :
    slideBodyUntouched sampleNoneContentRun.1 sampleNoneContentRun.2 "X" :=
  (claim_C5 samplePrs "X").1 sampleNoneContentRun.1 sampleNoneContentRun.2
    (by rfl)

/-- C6: for a non-empty items sequence, the first emitted pair overwrites
the cleared default first paragraph and every later pair appends, so the
body frame is exactly the flattened item list: its first paragraph is the
first item's text at level 0, and its length equals the number of emitted
pairs (no blank pre-seeded paragraph survives). -/
theorem claim_C6 (prs : Presentation) (t : String) (points : List ContentPoint)
    (hne : points ≠ []) :
    ∀ prs1 h1,
      create_content_slide prs t (some points) = Except.ok (prs1, h1) →
      (match prs1.slides[h1]? with
       | some s => s.phFrame? 1 = some (flattenParas points)
       | none => False)
      ∧ (flattenParas points).head?
          = (points.head?).map (fun pt => { text := pointText pt, level := 0 })
      ∧ (flattenParas points).length = (refFlatten points).length := by
  intro prs1 h1 e
  have hhead : (flattenParas points).head?
      = (points.head?).map (fun pt => { text := pointText pt, level := 0 }) := by
    cases points with
    | nil => rfl
    | cons p rest => simp [flattenParas, pointParas, List.flatMap_cons]
  have hlen : (flattenParas points).length = (refFlatten points).length := by
    rw [← map_paraPair_flattenParas]
    simp
  refine ⟨?_, hhead, hlen⟩
  rw [create_content_slide_filled_eq prs t points hne] at e
  split at e
  · simp at e
  · split at e
    · split at e
      · rename_i hmem
        simp only [Except.ok.injEq, Prod.mk.injEq] at e
        obtain ⟨rfl, rfl⟩ := e
        simp only [getElem?_append_len]
        rw [contentSlideFilled_phFrame? _ _ _ hmem,
          contentLoop_eq_flattenParas points hne]
      · simp at e
    · simp at e

/-- Witness for C6 at the concrete nested input on the sample surface. -/
theorem claim_C6_witness :
    (match sampleContentRun.1.slides[sampleContentRun.2]? with
     | some s =>
         s.phFrame? 1
           = some (flattenParas
               [ContentPoint.tup "A" [], ContentPoint.tup "B" ["B1", "B2"]])
     | none => False)
    ∧ (flattenParas
          [ContentPoint.tup "A" [], ContentPoint.tup "B" ["B1", "B2"]]).head?
        = (([ContentPoint.tup "A" [],
             ContentPoint.tup "B" ["B1", "B2"]].head?).map
            (fun pt => { text := pointText pt, level := 0 }))
    ∧ (flattenParas
          [ContentPoint.tup "A" [], ContentPoint.tup "B" ["B1", "B2"]]).length
        = (refFlatten
            [ContentPoint.tup "A" [], ContentPoint.tup "B" ["B1", "B2"]]).length :=
  claim_C6 samplePrs "X"
    [ContentPoint.tup "A" [], ContentPoint.tup "B" ["B1", "B2"]] (by simp)
    sampleContentRun.1 sampleContentRun.2 (by rfl)

/-- C7: assembling a title slide with title "T" and subtitle "S" appends
exactly one slide whose title region reads "T" and whose subtitle region
reads "S"; every placeholder frame holds a single paragraph (no
body-paragraph operations) and no text box is added. -/
theorem claim_C7 (prs : Presentation) :
    ∀ prs1 h1, create_title_slide prs "T" "S" = Except.ok (prs1, h1) →
      prs1.slides.length = prs.slides.length + 1
      ∧ h1 = prs.slides.length
      ∧ (match prs1.slides[h1]? with
         | some s =>
             s.title = some [{ text := "T" }]
             ∧ s.phFrame? 1 = some [{ text := "S" }]
             ∧ (∀ pr ∈ s.placeholders, pr.2.length = 1)
             ∧ s.textboxes = []
         | none => False) := by
  intro prs1 h1 e
  rw [create_title_slide_eq] at e
  split at e
  · simp at e
  · rename_i ly heq
    split at e
    · rename_i hmem
      split at e
      · simp only [Except.ok.injEq, Prod.mk.injEq] at e
        obtain ⟨rfl, rfl⟩ := e
        refine ⟨by simp, rfl, ?_⟩
        simp only [getElem?_append_len]
        exact ⟨titleSlideResult_title ly "T" "S",
          titleSlideResult_phFrame? ly "T" "S" hmem (by decide),
          titleSlideResult_frames_len ly "T" "S",
          titleSlideResult_textboxes ly "T" "S"⟩
      · simp at e
    · simp at e

/-- Witness for C7 at the concrete run on the sample surface. -/
theorem claim_C7_witness :
    sampleTitleRun.1.slides.length = samplePrs.slides.length + 1
    ∧ sampleTitleRun.2 = samplePrs.slides.length
    ∧ (match sampleTitleRun.1.slides[sampleTitleRun.2]? with
       | some s =>
           s.title = some [{ text := "T" }]
           ∧ s.phFrame? 1 = some [{ text := "S" }]
           ∧ (∀ pr ∈ s.placeholders, pr.2.length = 1)
           ∧ s.textboxes = []
       | none => False) :=
  claim_C7 samplePrs sampleTitleRun.1 sampleTitleRun.2 (by rfl)

/-- C8: each assembler call appends exactly one slide at the end of the
slide list, returns the handle of that slide, and leaves every earlier
slide untouched. -/
theorem claim_C8 (prs : Presentation) (t st sect : String)
    (cp : Option (List ContentPoint)) :
    (∀ prs1 h1, create_title_slide prs t st = Except.ok (prs1, h1) →
        appendsOneSlide prs prs1 h1)
    ∧ (∀ prs2 h2, create_content_slide prs t cp = Except.ok (prs2, h2) →
        appendsOneSlide prs prs2 h2)
    ∧ (∀ prs3 h3, create_section_header prs sect = Except.ok (prs3, h3) →
        appendsOneSlide prs prs3 h3) := by
  refine ⟨?_, ?_, ?_⟩
  · intro prs1 h1 e
    rw [create_title_slide_eq] at e
    split at e
    · simp at e
    · split at e
      · split at e
        · simp only [Except.ok.injEq, Prod.mk.injEq] at e
          obtain ⟨rfl, rfl⟩ := e
          exact ⟨by simp, rfl, take_append_len _ _⟩
        · simp at e
      · simp at e
  · intro prs2 h2 e
    rw [create_content_slide_eq] at e
    split at e
    · simp at e
    · split at e
      · split at e
        · simp only [Except.ok.injEq, Prod.mk.injEq] at e
          obtain ⟨rfl, rfl⟩ := e
          exact ⟨by simp, rfl, take_append_len _ _⟩
        · split at e
          · simp only [Except.ok.injEq, Prod.mk.injEq] at e
            obtain ⟨rfl, rfl⟩ := e
            exact ⟨by simp, rfl, take_append_len _ _⟩
          · split at e
            · simp only [Except.ok.injEq, Prod.mk.injEq] at e
              obtain ⟨rfl, rfl⟩ := e
              exact ⟨by simp, rfl, take_append_len _ _⟩
            · simp at e
      · simp at e
  · intro prs3 h3 e
    rw [create_section_header_eq] at e
    split at e
    · simp at e
    · split at e
      · simp only [Except.ok.injEq, Prod.mk.injEq] at e
        obtain ⟨rfl, rfl⟩ := e
        exact ⟨by simp, rfl, take_append_len _ _⟩
      · simp at e

/-- Witness for C8: the title conjunct realised at a concrete run. -/
theorem claim_C8_witness :
    appendsOneSlide samplePrs sampleTitleRun.1 sampleTitleRun.2 :=
  (claim_C8 samplePrs "T" "S" "Sec" (some [])).1 sampleTitleRun.1
    sampleTitleRun.2 (by rfl)

/-- C9: with the default empty subtitle, the subtitle placeholder is never
written: every placeholder of the created title slide keeps its fresh
default frame, and only the title region is set. -/
theorem claim_C9 (prs : Presentation) (t : String) :
    ∀ prs1 h1, create_title_slide prs t "" = Except.ok (prs1, h1) →
      (match prs1.slides[h1]? with
       | some s => s.title = some [{ text := t }]
           ∧ ∀ pr ∈ s.placeholders, pr.2 = newTextFrame
       | none => False) := by
  intro prs1 h1 e
  rw [create_title_slide_eq] at e
  split at e
  · simp at e
  · rename_i ly heq
    split at e
    · split at e
      · simp only [Except.ok.injEq, Prod.mk.injEq] at e
        obtain ⟨rfl, rfl⟩ := e
        simp only [getElem?_append_len]
        rw [titleSlideResult_empty_sub]
        refine ⟨rfl, ?_⟩
        intro pr hpr
        rw [show ({ newSlideFrom ly 0 with
            title := some [{ text := t }] } : Slide).placeholders
            = ly.placeholderIdxs.map (fun i => (i, newTextFrame)) from rfl] at hpr
        obtain ⟨i, hi, rfl⟩ := List.mem_map.mp hpr
        rfl
      · simp at e
    · simp at e

/-- Witness for C9 at the concrete run with empty subtitle. -/
theorem claim_C9_witness :
    (match sampleTitleRunNoSub.1.slides[sampleTitleRunNoSub.2]? with
     | some s => s.title = some [{ text := "T" }]
         ∧ ∀ pr ∈ s.placeholders, pr.2 = newTextFrame
     | none => False) :=
  claim_C9 samplePrs "T" sampleTitleRunNoSub.1 sampleTitleRunNoSub.2 (by rfl)
